import Mathlib

/-!
Shallow embedding of the layered configuration store in `src/config.c`
(libgit2 early config layer): the backend registry, priority ordering,
read/write resolution, and value coercion, together with theorems about
the behaviour of `git_config_get_string`, `git_config_set_string`,
`git_config_add_file`, `git_config_foreach`, `git_config__parse_long`
and `git_config__parse_bool`.

C `long` is modelled as unbounded `Int` (the target platform is LP64 and
no claim exercises 64-bit overflow); the C `(int)` cast in
`git_config__parse_int` is modelled exactly as 32-bit two's-complement
truncation, since it is observable through `git_config__parse_bool`.
Fallible C functions returning negative error codes are modelled with
`Except GitError`.
-/

deriving instance DecidableEq for Except

/-- Error codes of the C source that the embedded operations can produce:
`GIT_ENOMEM`, `GIT_EINVALIDARGS`, `GIT_ENOTFOUND`, `GIT_EINVALIDTYPE`. -/
inductive GitError where
  | ENOMEM
  | EINVALIDARGS
  | ENOTFOUND
  | EINVALIDTYPE
deriving DecidableEq

/-- Modelled from the spec: a Backend (the capability contract of section 6;
concrete backends are not part of this source file). `entries` is the
backend's in-memory key/value content, and `cfgBound` models whether the
backend's owning-store back-pointer (`file->cfg` in the C source) has been
set by a successful registration. -/
structure GitConfigFile where
  entries : List (String × String)
  cfgBound : Bool
deriving DecidableEq

/-- The C struct `file_internal`: one registered backend paired with its
priority. -/
structure FileInternal where
  file : GitConfigFile
  priority : Int
deriving DecidableEq

/-- The C struct `git_config`: the ordered vector of registered backends. -/
structure GitConfig where
  files : List FileInternal
deriving DecidableEq

/-- The comparator `config_backend_cmp` from the source:
`bk_b->priority - bk_a->priority`, so higher priority sorts first. -/
def config_backend_cmp (a b : FileInternal) : Int :=
  b.priority - a.priority

/-- The ordering relation induced by `config_backend_cmp`: `a` precedes `b`
when the comparator reports non-positive. -/
def fileLE (a b : FileInternal) : Prop :=
  config_backend_cmp a b ≤ 0

instance (a b : FileInternal) : Decidable (fileLE a b) :=
  inferInstanceAs (Decidable (config_backend_cmp a b ≤ 0))

instance : IsTotal FileInternal fileLE :=
  ⟨fun a b => by
    unfold fileLE config_backend_cmp
    omega⟩

instance : IsTrans FileInternal fileLE :=
  ⟨fun a b c h1 h2 => by
    unfold fileLE config_backend_cmp at h1 h2 ⊢
    omega⟩

/-- Modelled from the spec: `git_vector_sort` (vector.c, which is not under
src/) sorts the vector contents with the vector's comparator, here
`config_backend_cmp`; equal elements end up in some unspecified order, so
any sort wrt the comparator is a faithful model. -/
def sortFiles (l : List FileInternal) : List FileInternal :=
  List.insertionSort fileLE l

/-- Modelled from the spec: a backend's `get` (section 6: look up one value
within this backend only; fails with NotFound if absent). `lookupEntry` is
the underlying association-list lookup. -/
def lookupEntry (name : String) : List (String × String) → Option String
  | [] => none
  | (k, w) :: es => if k = name then some w else lookupEntry name es

/-- Modelled from the spec: backend `get` returning `GIT_ENOTFOUND` when the
key is absent from this backend. -/
def backendGet (file : GitConfigFile) (name : String) : Except GitError String :=
  match lookupEntry name file.entries with
  | some v => Except.ok v
  | none => Except.error GitError.ENOTFOUND

/-- Modelled from the spec: a backend's `set` (section 6: persist/update one
value within this backend only): replace an existing binding or append a
new one. -/
def setEntries (name value : String) : List (String × String) → List (String × String)
  | [] => [(name, value)]
  | (k, w) :: es => if k = name then (k, value) :: es else (k, w) :: setEntries name value es

/-- Modelled from the spec: backend `set` applied to the backend's state. -/
def backendSet (file : GitConfigFile) (name value : String) : GitConfigFile :=
  { file with entries := setEntries name value file.entries }

/-- Modelled from the spec: a backend's `foreach` (section 6: invoke
`callback(name)` once per stored key in this backend; stop early and return
that value on first nonzero result). The callback is modelled as a pure
`String → Int`. -/
def backendForeachEntries (fn : String → Int) : List (String × String) → Int
  | [] => 0
  | (k, _) :: es => if fn k = 0 then backendForeachEntries fn es else fn k

/-- `git_config_add_file` from the source. The two possible C allocation
failures (`git__malloc` of the `file_internal`, and `git_vector_insert`)
are passed in as explicit boolean oracles `allocOk` and `insertOk`, since
the embedding is pure. Returns the post-state of the store, the post-state
of the caller's backend object (on success this object — with its
owning-store reference set — is also the one reachable inside the store),
and the error outcome. Source order is: insert at the end of the vector,
`git_vector_sort`, then set `internal->file->cfg`; the back-pointer is set
on the same object that sorting permuted, so binding the file before the
sort is observationally identical. -/
def git_config_add_file (allocOk insertOk : Bool) (cfg : GitConfig)
    (file : GitConfigFile) (priority : Int) :
    GitConfig × GitConfigFile × Except GitError Unit :=
  if allocOk = false then
    (cfg, file, Except.error GitError.ENOMEM)
  else if insertOk = false then
    (cfg, file, Except.error GitError.ENOMEM)
  else
    (GitConfig.mk (sortFiles (cfg.files ++ [FileInternal.mk { file with cfgBound := true } priority])),
     { file with cfgBound := true },
     Except.ok ())

/-- `git_config_get_string` from the source: fail with `GIT_EINVALIDARGS`
when no backend is registered, otherwise delegate to the backend at
index 0 of the vector. -/
def git_config_get_string (cfg : GitConfig) (name : String) : Except GitError String :=
  match cfg.files with
  | [] => Except.error GitError.EINVALIDARGS
  | internal :: _ => backendGet internal.file name

/-- `git_config_set_string` from the source: fail with `GIT_EINVALIDARGS`
when no backend is registered, otherwise delegate to the backend at
index 0; the store is returned together with the outcome since the
backend's state changes in place in C. -/
def git_config_set_string (cfg : GitConfig) (name value : String) :
    GitConfig × Except GitError Unit :=
  match cfg.files with
  | [] => (cfg, Except.error GitError.EINVALIDARGS)
  | internal :: rest =>
      (GitConfig.mk ({ internal with file := backendSet internal.file name value } :: rest),
       Except.ok ())

/-- `git_config_set_bool` from the source: `value ? "true" : "false"` then
`git_config_set_string`. -/
def git_config_set_bool (cfg : GitConfig) (name : String) (value : Int) :
    GitConfig × Except GitError Unit :=
  git_config_set_string cfg name (if value = 0 then "false" else "true")

/-- The loop body of `git_config_foreach`: iterate over the backend vector
in index order while the accumulated return is `GIT_SUCCESS` (0). -/
def foreachLoop (fn : String → Int) : List FileInternal → Int
  | [] => 0
  | f :: fs =>
      if backendForeachEntries fn f.file.entries = 0 then foreachLoop fn fs
      else backendForeachEntries fn f.file.entries

/-- `git_config_foreach` from the source. -/
def git_config_foreach (cfg : GitConfig) (fn : String → Int) : Int :=
  foreachLoop fn cfg.files

/-- The keys of one backend, in storage order. -/
def backendKeys (f : GitConfigFile) : List String :=
  f.entries.map Prod.fst

/-- All keys of the store: keys of each backend, backends taken in vector
order (after registration this is descending priority order). -/
def storeKeys (cfg : GitConfig) : List String :=
  (cfg.files.map fun fi => backendKeys fi.file).flatten

/-- The spec-side sequential traversal: call the callback on each key in
order; the first nonzero return stops the traversal and becomes the
result, and exhausting the list yields success (0). -/
def runCallback (fn : String → Int) : List String → Int
  | [] => 0
  | k :: ks => if fn k = 0 then runCallback fn ks else fn k

/-- The numeric value of a character as a digit, following C integer-literal
conventions (decimal digits, then lowercase and uppercase hex letters). -/
def digitVal (c : Char) : Option Nat :=
  if '0' ≤ c ∧ c ≤ '9' then some (c.toNat - Char.toNat '0')
  else if 'a' ≤ c ∧ c ≤ 'f' then some (c.toNat - Char.toNat 'a' + 10)
  else if 'A' ≤ c ∧ c ≤ 'F' then some (c.toNat - Char.toNat 'A' + 10)
  else none

/-- Consume the maximal run of digits valid in `base`, accumulating the
value; returns the value, the number of digits consumed, and the rest of
the input. -/
def parseDigits (base : Nat) : List Char → Nat → Nat → Nat × Nat × List Char
  | [], acc, ndig => (acc, ndig, [])
  | c :: cs, acc, ndig =>
    match digitVal c with
    | some v =>
        if v < base then parseDigits base cs (acc * base + v) (ndig + 1)
        else (acc, ndig, c :: cs)
    | none => (acc, ndig, c :: cs)

/-- Modelled from the spec: `git__strtol32` (util.c, which is not under
src/), as called with base 0 — a signed integer literal with alternate
bases matching common C integer-literal conventions: an optional single
sign, then `0x`/`0X` introduces base 16, a leading `0` base 8, anything
else base 10; at least one digit is required. Returns the parsed value and
the unconsumed remainder of the input. The spec folds a literal that fails
to parse into TypeError, so the failure code is `GIT_EINVALIDTYPE`. -/
def strtol32 (s : List Char) : Except GitError (Int × List Char) :=
  let signed : Bool × List Char :=
    match s with
    | '-' :: rest => (true, rest)
    | '+' :: rest => (false, rest)
    | _ => (false, s)
  let based : Nat × List Char :=
    match signed.2 with
    | '0' :: 'x' :: rest => (16, rest)
    | '0' :: 'X' :: rest => (16, rest)
    | '0' :: rest => (8, '0' :: rest)
    | _ => (10, signed.2)
  match parseDigits based.1 based.2 0 0 with
  | (acc, ndig, rest) =>
    if ndig = 0 then Except.error GitError.EINVALIDTYPE
    else Except.ok (if signed.1 then -(acc : Int) else (acc : Int), rest)

/-- `git_config__parse_long` from the source: parse the leading literal with
`git__strtol32` (propagating its failure via `git__rethrow`, which keeps
the error code), then switch on the single character at `num_end`:
end-of-string leaves the value unscaled, `k`/`K` multiplies by 1024,
`m`/`M` by 1024*1024, `g`/`G` by 1024*1024*1024, and any other character
fails with `GIT_EINVALIDTYPE`. Characters beyond `num_end` are never
inspected. -/
def git_config__parse_long (value : String) : Except GitError Int :=
  match strtol32 value.data with
  | Except.error e => Except.error e
  | Except.ok (num, num_end) =>
    match num_end with
    | [] => Except.ok num
    | c :: _ =>
      if c = 'k' ∨ c = 'K' then Except.ok (num * 1024)
      else if c = 'm' ∨ c = 'M' then Except.ok (num * (1024 * 1024))
      else if c = 'g' ∨ c = 'G' then Except.ok (num * (1024 * 1024 * 1024))
      else Except.error GitError.EINVALIDTYPE

/-- Two's-complement truncation of a mathematical integer to a 32-bit C
`int`, as performed by the cast `(int) tmp`. -/
def toInt32 (n : Int) : Int :=
  (n + 2 ^ 31) % 2 ^ 32 - 2 ^ 31

/-- `git_config__parse_int` from the source: `git_config__parse_long`
followed by the cast `*out = (int) tmp`. -/
def git_config__parse_int (value : String) : Except GitError Int :=
  match git_config__parse_long value with
  | Except.ok n => Except.ok (toInt32 n)
  | Except.error e => Except.error e

/-- ASCII `tolower`, as used by `strcasecmp`. -/
def lowerChar (c : Char) : Char :=
  if 'A' ≤ c ∧ c ≤ 'Z' then Char.ofNat (c.toNat + 32) else c

/-- The C `strcasecmp(a, b) == 0` test, modelled as equality after ASCII
lowercasing. -/
def caseEq (a b : String) : Bool :=
  a.data.map lowerChar == b.data.map lowerChar

/-- `git_config__parse_bool` from the source. The raw value is
`Option String` because a key present with no assigned value reaches the
function as a NULL pointer; that case yields `true`. Then the six boolean
tokens are tried case-insensitively, and otherwise the value is parsed
with `git_config__parse_int` and mapped through `!!(*out)`. -/
def git_config__parse_bool (value : Option String) : Except GitError Bool :=
  match value with
  | none => Except.ok true
  | some v =>
    if caseEq v "true" || caseEq v "yes" || caseEq v "on" then Except.ok true
    else if caseEq v "false" || caseEq v "no" || caseEq v "off" then Except.ok false
    else
      match git_config__parse_int v with
      | Except.ok n => Except.ok (n != 0)
      | Except.error e => Except.error e

/-! Helper lemmas. -/

/-- Looking up a key right after setting it yields the value just set. -/
theorem lookupEntry_setEntries (name v : String) (es : List (String × String)) :
    lookupEntry name (setEntries name v es) = some v := by
  induction es with
  | nil => simp [setEntries, lookupEntry]
  | cons e es ih =>
    obtain ⟨k, w⟩ := e
    by_cases h : k = name
    · simp [setEntries, lookupEntry, h]
    · simp [setEntries, lookupEntry, h, ih]

/-- The sorted vector is pairwise descending in priority. -/
theorem sortFiles_pairwise (l : List FileInternal) :
    List.Pairwise (fun x y : FileInternal => y.priority ≤ x.priority) (sortFiles l) := by
  have h := List.sorted_insertionSort fileLE l
  exact h.imp (fun hxy => by
    unfold fileLE config_backend_cmp at hxy
    omega)

/-- A single backend's foreach is the sequential traversal of its keys. -/
theorem backendForeachEntries_eq_runCallback (fn : String → Int)
    (es : List (String × String)) :
    backendForeachEntries fn es = runCallback fn (es.map Prod.fst) := by
  induction es with
  | nil => rfl
  | cons e es ih =>
    obtain ⟨k, v⟩ := e
    simp [backendForeachEntries, runCallback, ih]

/-- Early-exit traversal distributes over list append. -/
theorem runCallback_append (fn : String → Int) (ks ls : List String) :
    runCallback fn (ks ++ ls) =
      if runCallback fn ks = 0 then runCallback fn ls else runCallback fn ks := by
  induction ks with
  | nil => simp [runCallback]
  | cons k ks ih =>
    by_cases h : fn k = 0
    · simp [runCallback, h, ih]
    · simp [runCallback, h]

/-- The backend-vector loop equals the early-exit traversal of the
concatenated key lists. -/
theorem foreachLoop_eq_runCallback (fn : String → Int) (l : List FileInternal) :
    foreachLoop fn l = runCallback fn ((l.map fun fi => backendKeys fi.file).flatten) := by
  induction l with
  | nil => rfl
  | cons f fs ih =>
    rw [List.map_cons, List.flatten_cons, runCallback_append]
    simp only [foreachLoop, backendKeys, backendForeachEntries_eq_runCallback, ih]

/-! Claim theorems. -/

/-- C1: on a store with at least one registered backend, `get_string`
consults only the backend at index 0 of the sequence: it returns that
backend's value when the key is present there, and fails with
`GIT_ENOTFOUND` when the key is absent there, whatever the lower-priority
backends hold. -/
theorem get_string_top_backend_only (f0 : FileInternal) (rest : List FileInternal)
    (name : String) :
    (∀ v : String, lookupEntry name f0.file.entries = some v →
      git_config_get_string (GitConfig.mk (f0 :: rest)) name = Except.ok v) ∧
    (lookupEntry name f0.file.entries = none →
      git_config_get_string (GitConfig.mk (f0 :: rest)) name =
        Except.error GitError.ENOTFOUND) := by
  constructor
  · intro v hv
    simp [git_config_get_string, backendGet, hv]
  · intro hv
    simp [git_config_get_string, backendGet, hv]

/-- Witness for C1, the scenario from the spec: the top backend (priority 2)
lacks key `x`, a lower-priority backend (priority 1) has `x = 1`, and
`get_string` still fails with `GIT_ENOTFOUND`. -/
theorem get_string_top_backend_only_witness :
    git_config_get_string
      (GitConfig.mk [FileInternal.mk (GitConfigFile.mk [("y", "2")] true) 2,
        FileInternal.mk (GitConfigFile.mk [("x", "1")] true) 1]) "x" =
      Except.error GitError.ENOTFOUND :=
  (get_string_top_backend_only (FileInternal.mk (GitConfigFile.mk [("y", "2")] true) 2)
    [FileInternal.mk (GitConfigFile.mk [("x", "1")] true) 1] "x").2 (by decide)

/-- C2: immediately after every successful `add_backend` the store's
backend sequence is pairwise descending in priority (higher priority at a
lower index; ties in any order). -/
theorem add_file_sorted_desc (allocOk insertOk : Bool) (cfg : GitConfig)
    (file : GitConfigFile) (priority : Int)
    (h : (git_config_add_file allocOk insertOk cfg file priority).2.2 = Except.ok ()) :
    List.Pairwise (fun x y : FileInternal => y.priority ≤ x.priority)
      (git_config_add_file allocOk insertOk cfg file priority).1.files := by
  cases allocOk with
  | false => simp [git_config_add_file] at h
  | true =>
    cases insertOk with
    | false => simp [git_config_add_file] at h
    | true =>
      simp only [git_config_add_file, if_neg]
      simpa using sortFiles_pairwise
        (cfg.files ++ [FileInternal.mk { file with cfgBound := true } priority])

/-- Witness for C2: adding a priority-5 backend to a store already holding a
priority-1 backend succeeds and leaves the sequence pairwise descending. -/
theorem add_file_sorted_desc_witness :
    ((git_config_add_file true true
        (GitConfig.mk [FileInternal.mk (GitConfigFile.mk [] true) 1])
        (GitConfigFile.mk [] false) 5).2.2 = Except.ok ()) ∧
    List.Pairwise (fun x y : FileInternal => y.priority ≤ x.priority)
      (git_config_add_file true true
        (GitConfig.mk [FileInternal.mk (GitConfigFile.mk [] true) 1])
        (GitConfigFile.mk [] false) 5).1.files :=
  ⟨by decide,
    add_file_sorted_desc true true
      (GitConfig.mk [FileInternal.mk (GitConfigFile.mk [] true) 1])
      (GitConfigFile.mk [] false) 5 (by decide)⟩

/-- C3: `foreach` behaves exactly like the early-exit sequential traversal
of all the store's keys taken backend by backend in sequence order — the
callback runs once per stored key per backend, the first nonzero callback
return stops iteration across all remaining keys and backends and becomes
the result, and exhausting every backend yields success (0). -/
theorem foreach_first_nonzero_stops (cfg : GitConfig) (fn : String → Int) :
    git_config_foreach cfg fn = runCallback fn (storeKeys cfg) :=
  foreachLoop_eq_runCallback fn cfg.files

/-- C7: on a store with zero registered backends, `get_string` and
`set_string` fail with `GIT_EINVALIDARGS`, no backend is consulted, and
the store is left unmodified. -/
theorem empty_store_get_set_invalid (name value : String) :
    git_config_get_string (GitConfig.mk []) name = Except.error GitError.EINVALIDARGS ∧
    git_config_set_string (GitConfig.mk []) name value =
      (GitConfig.mk [], Except.error GitError.EINVALIDARGS) :=
  ⟨rfl, rfl⟩

/-- C8: when `add_backend` fails, the failure is `GIT_ENOMEM`, the store's
backend sequence is exactly what it was before the call, and the backend
object is returned unchanged — in particular its owning-store reference is
not set. -/
theorem add_file_failure_leaves_store (allocOk insertOk : Bool) (cfg : GitConfig)
    (file : GitConfigFile) (priority : Int) (e : GitError)
    (h : (git_config_add_file allocOk insertOk cfg file priority).2.2 = Except.error e) :
    e = GitError.ENOMEM ∧
    (git_config_add_file allocOk insertOk cfg file priority).1 = cfg ∧
    (git_config_add_file allocOk insertOk cfg file priority).2.1 = file := by
  cases allocOk with
  | false =>
    refine ⟨?_, rfl, rfl⟩
    have h2 := h
    simp [git_config_add_file] at h2
    exact h2.symm
  | true =>
    cases insertOk with
    | false =>
      refine ⟨?_, rfl, rfl⟩
      have h2 := h
      simp [git_config_add_file] at h2
      exact h2.symm
    | true => simp [git_config_add_file] at h

/-- Witness for C8: a failed insertion (allocation oracle false) reports
`GIT_ENOMEM` and leaves the one-backend store exactly as it was. -/
theorem add_file_failure_leaves_store_witness :
    ((git_config_add_file false true
        (GitConfig.mk [FileInternal.mk (GitConfigFile.mk [("a", "b")] true) 3])
        (GitConfigFile.mk [] false) 7).2.2 = Except.error GitError.ENOMEM) ∧
    (git_config_add_file false true
        (GitConfig.mk [FileInternal.mk (GitConfigFile.mk [("a", "b")] true) 3])
        (GitConfigFile.mk [] false) 7).1 =
      GitConfig.mk [FileInternal.mk (GitConfigFile.mk [("a", "b")] true) 3] :=
  ⟨by decide,
    (add_file_failure_leaves_store false true
      (GitConfig.mk [FileInternal.mk (GitConfigFile.mk [("a", "b")] true) 3])
      (GitConfigFile.mk [] false) 7 GitError.ENOMEM (by decide)).2.1⟩

/-- C9: on a store with at least one registered backend, `set_bool` stores
the canonical string (`"true"` for any nonzero value, `"false"` for zero)
in the backend at index 0, so a subsequent `get_string` of the same name
returns exactly that string. -/
theorem set_bool_get_string_roundtrip (f0 : FileInternal) (rest : List FileInternal)
    (name : String) (value : Int) :
    (git_config_set_bool (GitConfig.mk (f0 :: rest)) name value).2 = Except.ok () ∧
    git_config_get_string (git_config_set_bool (GitConfig.mk (f0 :: rest)) name value).1
        name = Except.ok (if value = 0 then "false" else "true") := by
  constructor
  · rfl
  · simp [git_config_set_bool, git_config_set_string, git_config_get_string,
      backendGet, backendSet, lookupEntry_setEntries]

/-- C10: `foreach` on a store with zero registered backends returns success
without visiting any key, while `get_string` and `set_string` on the same
store fail with `GIT_EINVALIDARGS`. -/
theorem foreach_empty_store_success (fn : String → Int) (name value : String) :
    git_config_foreach (GitConfig.mk []) fn = 0 ∧
    storeKeys (GitConfig.mk []) = [] ∧
    git_config_get_string (GitConfig.mk []) name = Except.error GitError.EINVALIDARGS ∧
    (git_config_set_string (GitConfig.mk []) name value).2 =
      Except.error GitError.EINVALIDARGS :=
  ⟨rfl, rfl, rfl, rfl⟩

/-- Counterexample to C4 as stated: `parse_integer("10kk")` has a character
remaining after the single unit suffix, yet it succeeds with 10240 instead
of failing with `GIT_EINVALIDTYPE` — the source only inspects the one
character at `num_end` and never looks past a recognised suffix. -/
theorem parse_long_ignores_after_suffix :
    git_config__parse_long "10kk" = Except.ok 10240 ∧
    git_config__parse_long "10kk" ≠ Except.error GitError.EINVALIDTYPE := by
  constructor
  · decide
  · decide

/-- C4 as amended: `parse_integer` fails with `GIT_EINVALIDTYPE` exactly when
the character immediately following the integer literal is neither
end-of-input nor one of the suffix characters k, K, m, M, g, G (characters
after a recognised suffix character are ignored); a literal that fails to
parse propagates its failure; in particular `parse_integer("5x")` fails
with `GIT_EINVALIDTYPE`. -/
theorem parse_long_trailing_typeerror (s : String) (n : Int) (c : Char) (cs : List Char)
    (h : strtol32 s.data = Except.ok (n, c :: cs))
    (hk : ¬(c = 'k' ∨ c = 'K' ∨ c = 'm' ∨ c = 'M' ∨ c = 'g' ∨ c = 'G')) :
    git_config__parse_long s = Except.error GitError.EINVALIDTYPE ∧
    (∀ t : String, ∀ e : GitError, strtol32 t.data = Except.error e →
      git_config__parse_long t = Except.error e) ∧
    git_config__parse_long "5x" = Except.error GitError.EINVALIDTYPE := by
  refine ⟨?_, ?_, by decide⟩
  · have h1 : ¬(c = 'k' ∨ c = 'K') := by tauto
    have h2 : ¬(c = 'm' ∨ c = 'M') := by tauto
    have h3 : ¬(c = 'g' ∨ c = 'G') := by tauto
    simp [git_config__parse_long, h, h1, h2, h3]
  · intro t e ht
    simp [git_config__parse_long, ht]

/-- Witness for the amended C4 at the concrete input `5x`: the literal
parses to 5 with `x` remaining, and `parse_integer("5x")` fails with
`GIT_EINVALIDTYPE`. -/
theorem parse_long_trailing_typeerror_witness :
    (strtol32 "5x".data = Except.ok (5, ['x'])) ∧
    git_config__parse_long "5x" = Except.error GitError.EINVALIDTYPE :=
  ⟨by decide,
    (parse_long_trailing_typeerror "5x" 5 'x' [] (by decide) (by decide)).1⟩

/-- C5: when the input is a parseable signed integer literal followed by
exactly one case-insensitive unit suffix, `parse_integer` scales the
literal by 1024 for k/K, 1024*1024 for m/M and 1024*1024*1024 for g/G;
with no suffix the literal is returned unscaled; in particular
`parse_integer("10k") = 10240` and
`parse_integer("2G") = 2*1024*1024*1024`. -/
theorem parse_long_suffix_scaling (s : String) (n : Int) (c : Char)
    (h : strtol32 s.data = Except.ok (n, [c])) :
    ((c = 'k' ∨ c = 'K') → git_config__parse_long s = Except.ok (n * 1024)) ∧
    ((c = 'm' ∨ c = 'M') → git_config__parse_long s = Except.ok (n * (1024 * 1024))) ∧
    ((c = 'g' ∨ c = 'G') → git_config__parse_long s = Except.ok (n * (1024 * 1024 * 1024))) ∧
    (∀ t : String, ∀ m : Int, strtol32 t.data = Except.ok (m, []) →
      git_config__parse_long t = Except.ok m) ∧
    git_config__parse_long "10k" = Except.ok 10240 ∧
    git_config__parse_long "2G" = Except.ok (2 * 1024 * 1024 * 1024) := by
  refine ⟨?_, ?_, ?_, ?_, by decide, by decide⟩
  · intro hc
    rcases hc with hc | hc <;> subst hc <;> simp [git_config__parse_long, h]
  · intro hc
    rcases hc with hc | hc <;> subst hc <;> simp [git_config__parse_long, h]
  · intro hc
    rcases hc with hc | hc <;> subst hc <;> simp [git_config__parse_long, h]
  · intro t m ht
    simp [git_config__parse_long, ht]

/-- Witness for C5 at the concrete input `10k`: the literal parses to 10
with the single suffix `k` remaining, and scaling yields 10 * 1024. -/
theorem parse_long_suffix_scaling_witness :
    (strtol32 "10k".data = Except.ok (10, ['k'])) ∧
    git_config__parse_long "10k" = Except.ok (10 * 1024) :=
  ⟨by decide, (parse_long_suffix_scaling "10k" 10 'k' (by decide)).1 (Or.inl rfl)⟩

/-- Counterexample to C6 as stated: for `"4194304k"` the integer parse
succeeds with the nonzero value 4194304 * 1024 = 2^32, yet `parse_bool`
returns `false` — the source routes the value through
`git_config__parse_int`, whose `(int)` cast truncates 2^32 to 0 before the
`!!` test, so the result is not `true` for every nonzero parsed integer. -/
theorem parse_bool_truncates_to_int32 :
    git_config__parse_bool (some "4194304k") = Except.ok false ∧
    git_config__parse_long "4194304k" = Except.ok 4294967296 := by
  constructor
  · decide
  · decide

/-- C6 as amended: `parse_bool` returns `true` when the value is absent;
returns `true` on a case-insensitive match of true/yes/on and `false` on a
case-insensitive match of false/no/off; otherwise parses the value as an
integer, truncates it to a 32-bit int, and returns `true` iff the
truncated value is nonzero; and it fails exactly when that integer parse
fails (`parse_bool("banana")` fails with `GIT_EINVALIDTYPE`, while
`parse_bool("On")` is `true`, `parse_bool("0")` is `false` and
`parse_bool("2")` is `true`). -/
theorem parse_bool_semantics :
    git_config__parse_bool none = Except.ok true ∧
    (∀ v : String, (caseEq v "true" || caseEq v "yes" || caseEq v "on") = true →
      git_config__parse_bool (some v) = Except.ok true) ∧
    (∀ v : String, (caseEq v "true" || caseEq v "yes" || caseEq v "on") = false →
      (caseEq v "false" || caseEq v "no" || caseEq v "off") = true →
      git_config__parse_bool (some v) = Except.ok false) ∧
    (∀ v : String, ∀ n : Int,
      (caseEq v "true" || caseEq v "yes" || caseEq v "on") = false →
      (caseEq v "false" || caseEq v "no" || caseEq v "off") = false →
      git_config__parse_long v = Except.ok n →
      git_config__parse_bool (some v) = Except.ok (toInt32 n != 0)) ∧
    (∀ v : String, ∀ e : GitError,
      (caseEq v "true" || caseEq v "yes" || caseEq v "on") = false →
      (caseEq v "false" || caseEq v "no" || caseEq v "off") = false →
      git_config__parse_long v = Except.error e →
      git_config__parse_bool (some v) = Except.error e) ∧
    git_config__parse_bool (some "On") = Except.ok true ∧
    git_config__parse_bool (some "0") = Except.ok false ∧
    git_config__parse_bool (some "2") = Except.ok true ∧
    git_config__parse_bool (some "banana") = Except.error GitError.EINVALIDTYPE := by
  refine ⟨rfl, ?_, ?_, ?_, ?_, by decide, by decide, by decide, by decide⟩
  · intro v hv
    simp [git_config__parse_bool, hv]
  · intro v hv1 hv2
    simp [git_config__parse_bool, hv1, hv2]
  · intro v n hv1 hv2 hn
    simp [git_config__parse_bool, git_config__parse_int, hv1, hv2, hn]
  · intro v e hv1 hv2 he
    simp [git_config__parse_bool, git_config__parse_int, hv1, hv2, he]

/-- Witness for the amended C6 at the concrete input `2`: no boolean token
matches, the integer parse yields 2, and `parse_bool` returns the
nonzero-test of the truncated value. -/
theorem parse_bool_semantics_witness :
    ((caseEq "2" "true" || caseEq "2" "yes" || caseEq "2" "on") = false) ∧
    ((caseEq "2" "false" || caseEq "2" "no" || caseEq "2" "off") = false) ∧
    (git_config__parse_long "2" = Except.ok 2) ∧
    git_config__parse_bool (some "2") = Except.ok (toInt32 2 != 0) :=
  ⟨by decide, by decide, by decide,
    parse_bool_semantics.2.2.2.1 "2" 2 (by decide) (by decide) (by decide)⟩
